import Mathlib

/-
Verification of the libscca Windows Prefetch (SCCA) parser sources:
src/libscca/libscca_io_handle.c (IO handle decoders) and the file API
(libscca_file.c, staged as src/unnamed/part_000). The C functions are
embedded as pure Lean functions over byte lists; fallible calls return
Except. Structures mirror the fields the sources use. Struct layouts that
live in headers absent from the sources (scca_file_header.h,
scca_volume_information.h, libscca_definitions.h) and decoders of absent
translation units (libscca_file_information.c, libfvalue) are modelled
from the format description, marked in their doc comments.
-/

/-- Error kinds of the libscca error reporting, one per semantic failure
condition set at the call sites in the sources. -/
inductive SccaError where
  | invalidArgument
  | shortInput
  | invalidSignature
  | unsupportedVersion
  | offsetOutOfBounds
  | malformedStringTable
  | readFailed
  | aborted
  | outOfMemory
  | valueAlreadySet
  | valueMissing
  | unsupportedValue
  deriving DecidableEq

/-- Whether an Except carries a success value. -/
def exceptOk {ε α : Type} : Except ε α → Bool
  | .ok _ => true
  | .error _ => false

/-- Little-endian value of `n` bytes at offset `off` of a byte buffer
(byte_stream_copy_to_uintN_little_endian). A byte outside the buffer reads
as 0: the sources perform several of these reads without bounds checks, and
bounds are tracked separately where a claim is about them. -/
def leRead (data : List Nat) (off : Nat) : Nat → Nat
  | 0 => 0
  | n + 1 => data.getD off 0 + 256 * leRead data (off + 1) n

/-- byte_stream_copy_to_uint32_little_endian -/
def readU32 (data : List Nat) (off : Nat) : Nat := leRead data off 4

/-- byte_stream_copy_to_uint64_little_endian -/
def readU64 (data : List Nat) (off : Nat) : Nat := leRead data off 8

/-- memory_copy of `n` bytes starting at `off`; unchecked, like the source. -/
def readBytes (data : List Nat) (off n : Nat) : List Nat :=
  (List.range n).map fun k => data.getD (off + k) 0

/-- The four signature bytes, ASCII "SCCA" (scca_file_signature in the source). -/
def scca_file_signature : List Nat := [83, 67, 67, 65]

/-- The fields of libscca_io_handle_t that the sources read and write:
format_version, file_size (both set by the file-header read) and the abort
flag (set by libscca_file_signal_abort). -/
structure IoHandle where
  format_version : Nat
  file_size : Nat
  abort : Nat
  deriving DecidableEq

/-- An IO handle as libscca_io_handle_initialize leaves it: all fields zero. -/
def zeroIoHandle : IoHandle := ⟨0, 0, 0⟩

/-- libscca_io_handle_clear: memory_set 0 over the whole handle; fails only
when the handle is missing. -/
def libscca_io_handle_clear (io : Option IoHandle) : Except SccaError IoHandle :=
  match io with
  | none => .error .invalidArgument
  | some _ => .ok zeroIoHandle

/-- libscca_io_handle_read_file_header. `fileSize` is what
libbfio_handle_get_size reports, `data` the readable bytes. Reads the
84-byte scca_file_header_t at offset 0 (layout per the format description:
format_version at 0, signature at 4, file_size at 12, prefetch_hash at 76,
scca_file_header.h is not among the sources), rejects a wrong signature,
and decodes format_version, file_size and the prefetch hash. The source's
comparison of `fileSize` with the decoded file_size guards an empty TODO
block and has no effect. -/
def libscca_io_handle_read_file_header (io : IoHandle) (fileSize : Nat)
    (data : List Nat) : Except SccaError (IoHandle × Nat) :=
  if data.length < 84 then .error .readFailed
  else if (data.drop 4).take 4 ≠ scca_file_signature then .error .invalidSignature
  else
    .ok ({ io with format_version := readU32 data 0, file_size := readU32 data 12 },
         readU32 data 76)

/-- libscca_io_handle_read_metrics_array: rejects a format version outside
{17, 23, 26}, then seeks to `file_offset` and reads
`number_of_entries * entry_data_size` bytes (entry sizes 20 and 32 come
from scca_metrics_array.h, which is not among the sources; the format
description gives them). The entry walk only feeds debug output. -/
def libscca_io_handle_read_metrics_array (io : IoHandle) (data : List Nat)
    (file_offset number_of_entries : Nat) : Except SccaError Unit :=
  if io.format_version ≠ 17 ∧ io.format_version ≠ 23 ∧ io.format_version ≠ 26 then
    .error .unsupportedVersion
  else
    let entry_data_size := if io.format_version = 17 then 20 else 32
    if data.length < file_offset + number_of_entries * entry_data_size then
      .error .readFailed
    else .ok ()

/-- An 84-byte header whose signature is "SCCA" and whose format_version
field decodes to 30, with file_size field 84. -/
def header_version30 : List Nat :=
  [30, 0, 0, 0] ++ scca_file_signature ++ List.replicate 4 0 ++
    [84, 0, 0, 0] ++ List.replicate 68 0

/-- An 84-byte version-17 header whose file_size field decodes to 170. -/
def header_size170 : List Nat :=
  [17, 0, 0, 0] ++ scca_file_signature ++ List.replicate 4 0 ++
    [170, 0, 0, 0] ++ List.replicate 68 0

/-- C2 counterexample: a header with a valid "SCCA" signature but
format_version 30 is accepted by the header read, which returns success and
format_version 30 rather than failing with an unsupported-version error. -/
theorem read_file_header_accepts_version30 :
    libscca_io_handle_read_file_header zeroIoHandle 84 header_version30 =
      .ok (⟨30, 84, 0⟩, 0) := by
  rfl

/-- C2 (amended): the header read checks only the signature: on an input of
at least 84 bytes it fails with invalidSignature exactly when bytes 4..8
differ from "SCCA", and performs no format-version check; the version gate
against {17, 23, 26} sits in the metrics-array read, which fails with
unsupportedVersion for any other version and never with it for a supported
one. -/
theorem header_checks_signature_version_gate_in_metrics :
    ∀ (io : IoHandle) (fileSize : Nat) (data : List Nat),
      (84 ≤ data.length →
        ((data.drop 4).take 4 ≠ scca_file_signature →
          libscca_io_handle_read_file_header io fileSize data = .error .invalidSignature) ∧
        ((data.drop 4).take 4 = scca_file_signature →
          exceptOk (libscca_io_handle_read_file_header io fileSize data) = true)) ∧
      (∀ file_offset number_of_entries : Nat,
        (io.format_version ≠ 17 ∧ io.format_version ≠ 23 ∧ io.format_version ≠ 26 →
          libscca_io_handle_read_metrics_array io data file_offset number_of_entries =
            .error .unsupportedVersion) ∧
        (io.format_version = 17 ∨ io.format_version = 23 ∨ io.format_version = 26 →
          libscca_io_handle_read_metrics_array io data file_offset number_of_entries ≠
            .error .unsupportedVersion)) := by
  intro io fileSize data
  constructor
  · intro hlen
    constructor
    · intro hsig
      rw [libscca_io_handle_read_file_header, if_neg (by omega), if_pos hsig]
    · intro hsig
      rw [libscca_io_handle_read_file_header, if_neg (by omega),
        if_neg (by simp [hsig])]
      rfl
  · intro file_offset number_of_entries
    constructor
    · intro hv
      rw [libscca_io_handle_read_metrics_array, if_pos hv]
    · intro hv h
      rw [libscca_io_handle_read_metrics_array, if_neg (by tauto)] at h
      dsimp only [] at h
      split at h <;> split at h <;> simp_all

/-- C2 witness: both halves of the amended statement at concrete inputs: the
header with version 30 and signature "SCCA" passes the header read, and the
metrics-array read rejects version 30 and accepts version 17. -/
theorem header_signature_metrics_gate_witness :
    exceptOk (libscca_io_handle_read_file_header ⟨0, 0, 0⟩ 84 header_version30) = true ∧
    libscca_io_handle_read_metrics_array ⟨30, 84, 0⟩ header_version30 0 0 =
      .error .unsupportedVersion := by
  have h := header_checks_signature_version_gate_in_metrics ⟨0, 0, 0⟩ 84 header_version30
  have h30 := header_checks_signature_version_gate_in_metrics ⟨30, 84, 0⟩ 84 header_version30
  exact ⟨(h.1 (by decide)).2 (by decide), ((h30.2 0 0).1 (by decide))⟩

/-- C3 counterexample: with the header's file_size field decoding to 170,
the header read returns the same successful result when the reader reports
size 999 as when it reports the matching 170: the mismatch is not recorded
anywhere in the result, and no error is raised. -/
theorem size_mismatch_leaves_no_trace :
    libscca_io_handle_read_file_header zeroIoHandle 999 header_size170 =
        libscca_io_handle_read_file_header zeroIoHandle 170 header_size170 ∧
      libscca_io_handle_read_file_header zeroIoHandle 999 header_size170 =
        .ok (⟨17, 170, 0⟩, 0) := by
  exact ⟨rfl, rfl⟩

/-- C3 (amended): the header read ignores the reader-reported size
entirely: its result is identical for any two reported sizes (the source's
mismatch branch is an empty TODO block, so no flag is recorded), and a
well-formed header is accepted regardless of the reported size. -/
theorem size_mismatch_ignored_not_error :
    ∀ (io : IoHandle) (fs fs' : Nat) (data : List Nat),
      libscca_io_handle_read_file_header io fs data =
        libscca_io_handle_read_file_header io fs' data ∧
      (84 ≤ data.length → (data.drop 4).take 4 = scca_file_signature →
        exceptOk (libscca_io_handle_read_file_header io fs data) = true) := by
  intro io fs fs' data
  refine ⟨rfl, fun hlen hsig => ?_⟩
  rw [libscca_io_handle_read_file_header, if_neg (by omega), if_neg (by simp [hsig])]
  rfl

/-- C3 witness: the amended statement applied at a concrete mismatched
input: reported size 999 against a header declaring 170. -/
theorem size_mismatch_ignored_witness :
    exceptOk (libscca_io_handle_read_file_header zeroIoHandle 999 header_size170) = true := by
  exact (size_mismatch_ignored_not_error zeroIoHandle 999 170 header_size170).2
    (by decide) (by decide)

/-- The 16-bit little-endian code units of a byte buffer, in order. -/
def utf16Units : List Nat → List Nat
  | b0 :: b1 :: rest => (b0 + 256 * b1) :: utf16Units rest
  | _ => []

/-- Splits a code-unit sequence on NUL (0) separators. -/
def splitUnitsAux : List Nat → List Nat → List (List Nat)
  | [], acc => [acc.reverse]
  | u :: rest, acc =>
      if u = 0 then acc.reverse :: splitUnitsAux rest []
      else splitUnitsAux rest (u :: acc)

/-- Drops the one empty trailing entry a final separator produces. -/
def dropTrailingEmpty (l : List (List Nat)) : List (List Nat) :=
  match l.getLast? with
  | some [] => l.dropLast
  | _ => l

/-- Modelled from the spec: libfvalue_value_type_set_data_strings_array
(libfvalue is not among the sources). Parses a contiguous UTF-16LE region
of NUL-separated strings into its list of entries: an odd byte length is
malformed, and a trailing empty entry from a final separator is dropped. -/
def libfvalue_value_type_set_data_strings_array (b : List Nat) :
    Except SccaError (List (List Nat)) :=
  if b.length % 2 ≠ 0 then .error .malformedStringTable
  else .ok (dropTrailingEmpty (splitUnitsAux (utf16Units b) []))

/-- libscca_io_handle_read_filename_strings: seeks to the offset, reads
filename_string_size bytes and hands them to the strings-array parse. -/
def libscca_io_handle_read_filename_strings (data : List Nat)
    (filename_string_offset filename_string_size : Nat) :
    Except SccaError (List (List Nat)) :=
  if data.length < filename_string_offset + filename_string_size then
    .error .readFailed
  else
    libfvalue_value_type_set_data_strings_array
      ((data.drop filename_string_offset).take filename_string_size)

/-- The file-information fields the file API reads (their struct lives in
libscca_file_information.h, which is not among the sources; the field list
comes from the call sites in the file API and the format description). -/
structure FileInformation where
  metrics_array_offset : Nat
  number_of_metrics_entries : Nat
  trace_chain_array_offset : Nat
  number_of_trace_chain_array_entries : Nat
  filename_strings_offset : Nat
  filename_strings_size : Nat
  volumes_information_offset : Nat
  number_of_volumes : Nat
  volumes_information_size : Nat
  deriving DecidableEq

/-- A non-zero section offset must lie in [84, fileSize]. -/
def offsetRangeOk (fileSize off : Nat) : Bool :=
  decide (off = 0 ∨ (84 ≤ off ∧ off ≤ fileSize))

/-- Modelled from the spec: libscca_file_information_read
(libscca_file_information.c is not among the sources). Version-dispatched
read of the 156-byte (v17) or 224-byte (v23/v26) block at offset 84: an
unsupported format version is rejected, the nine common fields sit in order
at offsets 84..120, and each non-zero section offset is checked against
[84, file_size]. -/
def libscca_file_information_read (io : IoHandle) (data : List Nat) :
    Except SccaError FileInformation :=
  if io.format_version ≠ 17 ∧ io.format_version ≠ 23 ∧ io.format_version ≠ 26 then
    .error .unsupportedVersion
  else if data.length < 84 + (if io.format_version = 17 then 156 else 224) then
    .error .readFailed
  else
    let fi : FileInformation :=
      { metrics_array_offset := readU32 data 84
        number_of_metrics_entries := readU32 data 88
        trace_chain_array_offset := readU32 data 92
        number_of_trace_chain_array_entries := readU32 data 96
        filename_strings_offset := readU32 data 100
        filename_strings_size := readU32 data 104
        volumes_information_offset := readU32 data 108
        number_of_volumes := readU32 data 112
        volumes_information_size := readU32 data 116 }
    if offsetRangeOk io.file_size fi.metrics_array_offset &&
        offsetRangeOk io.file_size fi.trace_chain_array_offset &&
        offsetRangeOk io.file_size fi.filename_strings_offset &&
        offsetRangeOk io.file_size fi.volumes_information_offset then
      .ok fi
    else .error .offsetOutOfBounds

/-- What the source stores per volume in its
libscca_internal_volume_information_t, plus the 64-bit values its
file-references walk surfaces. -/
structure VolumeInformation where
  creation_time : Nat
  serial_number : Nat
  device_path : List Nat
  file_references : List Nat
  directory_strings : List (List Nat)
  deriving DecidableEq

/-- The file-references walk of libscca_io_handle_read_volumes_information:
from index 1 upward, one 64-bit value at
file_references_offset + 8 + 8 * index per index below
number_of_file_references. -/
def fileRefsFrom (data : List Nat) (file_references_offset : Nat) :
    Nat → Nat → List Nat
  | 0, _ => []
  | m + 1, i =>
      readU64 data (file_references_offset + 8 + 8 * i) ::
        fileRefsFrom data file_references_offset m (i + 1)

/-- The walk as the source runs it: indices i, i+1, ... while below n. -/
def fileRefsLoop (data : List Nat) (file_references_offset n i : Nat) : List Nat :=
  fileRefsFrom data file_references_offset (n - i) i

/-- The file-references region decode: version and count from the 8-byte
header at the offset, then the walk from index 1 (the 8 bytes at
offset + 8 are skipped: printed, never stored). -/
def readFileReferences (data : List Nat) (file_references_offset : Nat) :
    Nat × Nat × List Nat :=
  (readU32 data file_references_offset,
   readU32 data (file_references_offset + 4),
   fileRefsLoop data file_references_offset
     (readU32 data (file_references_offset + 4)) 1)

/-- Per-version record size: sizeof(scca_volume_information_v17_t) = 104
bytes, sizeof(scca_volume_information_v23_t) = 96 bytes
(scca_volume_information.h is not among the sources; the sizes come from
the format description). -/
def volume_information_record_size (format_version : Nat) : Nat :=
  if format_version = 17 then 104 else 96

/-- One per-volume record of the volumes-information buffer at cursor `c`:
the eight common fields at c..c+36, the file-references region when its
offset is non-zero, the device-path copy when its offset and character
count are non-zero, and the directory strings from their offset to the end
of the buffer (the byte count is the uint32 difference, which wraps when
the offset exceeds the buffer size). The source bounds-checks none of
these reads — its TODO comments mark each site — so the Bool of the result
reports whether every such read stayed inside the `size`-byte buffer. -/
def decodeVolume (data : List Nat) (size c : Nat) :
    Except SccaError VolumeInformation × Bool :=
  let device_path_offset := readU32 data c
  let device_path_characters := readU32 data (c + 4)
  let creation_time := readU64 data (c + 8)
  let serial_number := readU32 data (c + 16)
  let file_references_offset := readU32 data (c + 20)
  let directory_strings_array_offset := readU32 data (c + 28)
  let file_references :=
    if file_references_offset ≠ 0 then
      (readFileReferences data file_references_offset).2.2
    else []
  let device_path :=
    if device_path_offset ≠ 0 ∧ device_path_characters ≠ 0 then
      readBytes data device_path_offset (2 * device_path_characters)
    else []
  let directory_strings :=
    if directory_strings_array_offset ≠ 0 then
      libfvalue_value_type_set_data_strings_array
        (readBytes data directory_strings_array_offset
          ((size + 4294967296 - directory_strings_array_offset) % 4294967296))
    else .ok []
  let ok := decide ((c + 36 ≤ size) ∧
    (file_references_offset ≠ 0 → file_references_offset + 8 ≤ size) ∧
    (device_path_offset ≠ 0 → device_path_characters ≠ 0 →
      device_path_offset + 2 * device_path_characters ≤ size) ∧
    (directory_strings_array_offset ≠ 0 → directory_strings_array_offset ≤ size))
  (directory_strings.map fun ds =>
    { creation_time := creation_time
      serial_number := serial_number
      device_path := device_path
      file_references := file_references
      directory_strings := ds }, ok)

/-- The per-volume loop: `k` volumes left, cursor `c` advancing by the
record size; the Bool collects the access report of every record. -/
def volumesLoop (data : List Nat) (size recSize : Nat) :
    Nat → Nat → Except SccaError (List VolumeInformation) × Bool
  | 0, _ => (.ok [], true)
  | k + 1, c =>
      match decodeVolume data size c with
      | (.error e, ok) => (.error e, ok)
      | (.ok v, ok) =>
          match volumesLoop data size recSize k (c + recSize) with
          | (rest, restOk) => (rest.map fun l => v :: l, ok && restOk)

/-- libscca_io_handle_read_volumes_information: seeks to the offset, reads
the volumes_information_size-byte buffer, then decodes number_of_volumes
records against that buffer. The Bool is the access report of the
unchecked buffer reads (true on the short-read failure path, where none
happen). -/
def libscca_io_handle_read_volumes_information (io : IoHandle) (file : List Nat)
    (volumes_information_offset volumes_information_size number_of_volumes : Nat) :
    Except SccaError (List VolumeInformation) × Bool :=
  if file.length < volumes_information_offset + volumes_information_size then
    (.error .readFailed, true)
  else
    volumesLoop ((file.drop volumes_information_offset).take volumes_information_size)
      volumes_information_size (volume_information_record_size io.format_version)
      number_of_volumes 0

/-- A 40-byte volumes-information buffer holding one volume record whose
device_path_offset field decodes to 100 with a 2-character device path, so
the unchecked device-path copy reads bytes 100..104, outside the buffer. -/
def oob_volume_buffer : List Nat :=
  [100, 0, 0, 0, 2, 0, 0, 0] ++ List.replicate 32 0

/-- C1: the volumes-information decode validates no inner offset. On the
40-byte buffer above (version 17, one volume) it succeeds, returning a
volume whose device path was copied from offsets 100..104 — outside the
buffer, as the false access report records — instead of failing with an
offset-out-of-bounds error. -/
theorem volumes_information_unchecked_oob_read :
    libscca_io_handle_read_volumes_information ⟨17, 240, 0⟩ oob_volume_buffer 0 40 1 =
      (.ok [⟨0, 0, [0, 0, 0, 0], [], []⟩], false) := by
  rfl

/-- The walk of `m` remaining indices has `m` elements. -/
theorem fileRefsFrom_length (data : List Nat) (fro : Nat) :
    ∀ m i, (fileRefsFrom data fro m i).length = m := by
  intro m
  induction m with
  | zero => intro i; rfl
  | succ m ih => intro i; simp [fileRefsFrom, ih (i + 1)]

/-- The k-th element of the walk started at index `i` is the 64-bit value
at file_references_offset + 8 + 8 * (i + k). -/
theorem fileRefsFrom_getD (data : List Nat) (fro : Nat) :
    ∀ m i k, k < m →
      (fileRefsFrom data fro m i).getD k 0 =
        readU64 data (fro + 8 + 8 * (i + k)) := by
  intro m
  induction m with
  | zero =>
      intro i k hk
      exact absurd hk (by omega)
  | succ m ih =>
      intro i k hk
      match k with
      | 0 => simp [fileRefsFrom]
      | k + 1 =>
          rw [fileRefsFrom, List.getD_cons_succ, ih (i + 1) k (by omega)]
          congr 1
          omega

/-- A decoded volume's file references are the walk at the record's
file_references_offset field (empty when that field is zero). -/
theorem decodeVolume_file_references (data : List Nat) (size c : Nat)
    (v : VolumeInformation) (ok : Bool)
    (h : decodeVolume data size c = (.ok v, ok)) :
    v.file_references =
      if readU32 data (c + 20) ≠ 0 then
        (readFileReferences data (readU32 data (c + 20))).2.2
      else [] := by
  dsimp only [decodeVolume] at h
  by_cases hdso : readU32 data (c + 28) = 0
  · simp only [hdso, ne_eq, not_true_eq_false, if_false, ite_false,
      reduceIte, Except.map, Prod.mk.injEq, Except.ok.injEq] at h
    rw [← h.1]
  · rcases hp : libfvalue_value_type_set_data_strings_array
        (readBytes data (readU32 data (c + 28))
          ((size + 4294967296 - readU32 data (c + 28)) % 4294967296)) with e | ds
    · simp [hdso, hp, Except.map] at h
    · simp only [hdso, ne_eq, not_false_eq_true, if_true, ite_true, hp,
        Except.map, Prod.mk.injEq, Except.ok.injEq, reduceIte] at h
      rw [← h.1]

/-- C6: for a non-zero file_references_offset the decoder takes version and
count from the 8-byte header at that offset, skips the next 8 bytes, and
walks exactly count − 1 consecutive 64-bit references starting at
offset + 16; a count of 1 yields no references, and a decoded volume's
user-visible references are exactly that walk. -/
theorem file_references_count_minus_one (data : List Nat)
    (file_references_offset k : Nat) :
    ((readFileReferences data file_references_offset).2.2.length =
        readU32 data (file_references_offset + 4) - 1) ∧
      (readU32 data (file_references_offset + 4) = 1 →
        (readFileReferences data file_references_offset).2.2 = []) ∧
      (k < readU32 data (file_references_offset + 4) - 1 →
        (readFileReferences data file_references_offset).2.2.getD k 0 =
          readU64 data (file_references_offset + 16 + 8 * k)) ∧
      (∀ (size c : Nat) (v : VolumeInformation) (ok : Bool),
        decodeVolume data size c = (.ok v, ok) →
        v.file_references =
          if readU32 data (c + 20) ≠ 0 then
            (readFileReferences data (readU32 data (c + 20))).2.2
          else []) := by
  refine ⟨?_, ?_, ?_, ?_⟩
  · exact fileRefsFrom_length data file_references_offset
      (readU32 data (file_references_offset + 4) - 1) 1
  · intro h1
    show fileRefsFrom data file_references_offset
      (readU32 data (file_references_offset + 4) - 1) 1 = []
    rw [h1]
    rfl
  · intro hk
    have := fileRefsFrom_getD data file_references_offset
      (readU32 data (file_references_offset + 4) - 1) 1 k hk
    show (fileRefsFrom data file_references_offset
      (readU32 data (file_references_offset + 4) - 1) 1).getD k 0 =
        readU64 data (file_references_offset + 16 + 8 * k)
    rw [this]
    congr 1
    omega
  · exact fun size c v ok h => decodeVolume_file_references data size c v ok h

/-- A 64-byte volumes-information buffer: one version-23 record (96-byte
stride, but its fields fit in the buffer head) whose file_references_offset
field decodes to 40 with count 2, one 64-bit reference at offset 56. -/
def two_refs_buffer : List Nat :=
  [0, 0, 0, 0, 0, 0, 0, 0] ++ List.replicate 12 0 ++
    [40, 0, 0, 0] ++ List.replicate 16 0 ++
    [1, 0, 0, 0, 2, 0, 0, 0] ++ List.replicate 8 0 ++
    [66, 0, 0, 0, 0, 0, 0, 0]

/-- The file-references walk on the buffer above: version 1, count 2, and
the one reference value 66 read from offset 40 + 16. -/
theorem file_references_two_entries_example :
    readFileReferences two_refs_buffer 40 = (1, 2, [66]) := by
  rfl

/-- Modelled from the spec: the access-flag bit for reading, from
libscca_definitions.h (not among the sources); the checks only combine it
with the write bit as two distinct non-zero masks. -/
def LIBSCCA_ACCESS_FLAG_READ : Nat := 1

/-- Modelled from the spec: the access-flag bit for writing, from
libscca_definitions.h (not among the sources). -/
def LIBSCCA_ACCESS_FLAG_WRITE : Nat := 2

/-- The byte source: its readable bytes and whether it is open
(the libbfio handle contract). -/
structure BfioHandle where
  data : List Nat
  is_open : Bool
  deriving DecidableEq

/-- The fields of libscca_internal_file_t that the file API uses. -/
structure InternalFile where
  io_handle : Option IoHandle
  file_io_handle : Option BfioHandle
  file_io_handle_created_in_library : Bool
  file_io_handle_opened_in_library : Bool
  prefetch_hash : Nat
  file_information : Option FileInformation
  filename_strings : Option (List (List Nat))
  volumes_array : List VolumeInformation
  deriving DecidableEq

/-- The file libscca_file_initialize builds: zeroed fields, an empty
volumes array, a freshly zeroed IO handle. -/
def freshInternalFile : InternalFile :=
  { io_handle := some zeroIoHandle
    file_io_handle := none
    file_io_handle_created_in_library := false
    file_io_handle_opened_in_library := false
    prefetch_hash := 0
    file_information := none
    filename_strings := none
    volumes_array := [] }

/-- libscca_file_initialize over the pointed-to handle: the outer Option is
the `file` argument itself (none = NULL pointer), the inner one the
pointer's target. -/
def libscca_file_initialize (file : Option (Option InternalFile)) :
    Except SccaError Unit × Option (Option InternalFile) :=
  match file with
  | none => (.error .invalidArgument, none)
  | some (some f) => (.error .valueAlreadySet, some (some f))
  | some none => (.ok (), some (some freshInternalFile))

/-- libscca_file_signal_abort: sets the IO handle's abort flag to 1. -/
def libscca_file_signal_abort (f : InternalFile) :
    Except SccaError Unit × InternalFile :=
  match f.io_handle with
  | none => (.error .valueMissing, f)
  | some io => (.ok (), { f with io_handle := some { io with abort := 1 } })

/-- Wraps a successful value in `some`, keeping an error: the filename
strings value exists exactly when its section was read. -/
def exceptSome {ε α : Type} : Except ε α → Except ε (Option α)
  | .error e => .error e
  | .ok x => .ok (some x)

/-- The body of libscca_file_open_read past its argument checks: file
header, file information, filename strings (when their offset is non-zero),
volumes information (when its offset is non-zero). An error carries the
state at the failure point, to which the caller applies the goto on_error
cleanup. -/
def openReadCore (f : InternalFile) (io1 : IoHandle) (data : List Nat) :
    Except (SccaError × InternalFile) InternalFile :=
  let f0 := { f with io_handle := some io1 }
  match libscca_io_handle_read_file_header io1 data.length data with
  | .error e => .error (e, f0)
  | .ok (io2, hash) =>
    let f1 := { f0 with io_handle := some io2, prefetch_hash := hash }
    match libscca_file_information_read io2 data with
    | .error e => .error (e, f1)
    | .ok fi =>
      let f2 := { f1 with file_information := some fi }
      match (if fi.filename_strings_offset ≠ 0 then
               exceptSome (libscca_io_handle_read_filename_strings data
                 fi.filename_strings_offset fi.filename_strings_size)
             else .ok none) with
      | .error e => .error (e, f2)
      | .ok fs =>
        let f3 := { f2 with filename_strings := fs }
        match (if fi.volumes_information_offset ≠ 0 then
                 (libscca_io_handle_read_volumes_information io2 data
                   fi.volumes_information_offset fi.volumes_information_size
                   fi.number_of_volumes).1
               else .ok []) with
        | .error e => .error (e, f3)
        | .ok vols => .ok { f3 with volumes_array := f3.volumes_array ++ vols }

/-- libscca_file_open_read: argument checks (IO handle present, file
information and filename strings not already set), reset of a pending abort
flag, then the section reads; on any section failure the on_error block
frees the filename strings and the file information and empties the volumes
array. -/
def libscca_file_open_read (f : InternalFile) (data : List Nat) :
    Except SccaError Unit × InternalFile :=
  match f.io_handle with
  | none => (.error .valueMissing, f)
  | some io =>
    match f.file_information with
    | some _ => (.error .valueAlreadySet, f)
    | none =>
      match f.filename_strings with
      | some _ => (.error .valueAlreadySet, f)
      | none =>
        let io1 := if io.abort ≠ 0 then { io with abort := 0 } else io
        match openReadCore f io1 data with
        | .ok f1 => (.ok (), f1)
        | .error (e, f1) =>
            (.error e,
              { f1 with
                  file_information := none
                  filename_strings := none
                  volumes_array := [] })

/-- libscca_file_open_file_io_handle: rejects a second open and a missing
handle, rejects unsupported access flags before touching the handle, then
stores the handle, opens it when it is not yet open, and runs the read; on
a read failure the handle this call opened is closed and the stored
reference cleared. -/
def libscca_file_open_file_io_handle (f : InternalFile)
    (file_io_handle : Option BfioHandle) (access_flags : Nat) :
    Except SccaError Unit × InternalFile :=
  match f.file_io_handle with
  | some _ => (.error .valueAlreadySet, f)
  | none =>
    match file_io_handle with
    | none => (.error .invalidArgument, f)
    | some bf =>
      if access_flags &&& LIBSCCA_ACCESS_FLAG_READ = 0 ∧
          access_flags &&& LIBSCCA_ACCESS_FLAG_WRITE = 0 then
        (.error .unsupportedValue, f)
      else if access_flags &&& LIBSCCA_ACCESS_FLAG_WRITE ≠ 0 then
        (.error .unsupportedValue, f)
      else
        let f1 := { f with
          file_io_handle := some { bf with is_open := true }
          file_io_handle_opened_in_library :=
            if bf.is_open then f.file_io_handle_opened_in_library else true }
        match libscca_file_open_read f1 bf.data with
        | (.ok _, f2) => (.ok (), f2)
        | (.error e, f2) =>
            (.error e, { f2 with
              file_io_handle := none
              file_io_handle_opened_in_library :=
                if bf.is_open then f2.file_io_handle_opened_in_library
                else false })

/-- libscca_file_open: rejects a NULL filename and unsupported access flags
before creating the byte-source handle, then builds one over the named
file's bytes (not yet open) and delegates; on success the handle is marked
created in the library. The filename is opaque (none = NULL). -/
def libscca_file_open (f : InternalFile) (filename : Option Nat)
    (access_flags : Nat) (fileData : List Nat) :
    Except SccaError Unit × InternalFile :=
  match filename with
  | none => (.error .invalidArgument, f)
  | some _ =>
    if access_flags &&& LIBSCCA_ACCESS_FLAG_READ = 0 ∧
        access_flags &&& LIBSCCA_ACCESS_FLAG_WRITE = 0 then
      (.error .unsupportedValue, f)
    else if access_flags &&& LIBSCCA_ACCESS_FLAG_WRITE ≠ 0 then
      (.error .unsupportedValue, f)
    else
      match libscca_file_open_file_io_handle f
        (some { data := fileData, is_open := false }) access_flags with
      | (.ok _, f1) =>
          (.ok (), { f1 with file_io_handle_created_in_library := true })
      | (.error e, f1) => (.error e, f1)

/-- libscca_file_open_wide: the wide-filename variant, identical to
libscca_file_open but for the filename type. -/
def libscca_file_open_wide (f : InternalFile) (filename : Option (List Nat))
    (access_flags : Nat) (fileData : List Nat) :
    Except SccaError Unit × InternalFile :=
  match filename with
  | none => (.error .invalidArgument, f)
  | some _ =>
    if access_flags &&& LIBSCCA_ACCESS_FLAG_READ = 0 ∧
        access_flags &&& LIBSCCA_ACCESS_FLAG_WRITE = 0 then
      (.error .unsupportedValue, f)
    else if access_flags &&& LIBSCCA_ACCESS_FLAG_WRITE ≠ 0 then
      (.error .unsupportedValue, f)
    else
      match libscca_file_open_file_io_handle f
        (some { data := fileData, is_open := false }) access_flags with
      | (.ok _, f1) =>
          (.ok (), { f1 with file_io_handle_created_in_library := true })
      | (.error e, f1) => (.error e, f1)

/-- libscca_file_close: fails when no file IO handle is set; otherwise
closes and frees the handle as its bookkeeping flags demand, clears the IO
handle, zeroes the prefetch hash, frees the file information and the
filename strings, and empties the volumes array. Returns 0 on success. -/
def libscca_file_close (f : InternalFile) : Int × InternalFile :=
  match f.file_io_handle with
  | none => (-1, f)
  | some _ =>
    let f1 := { f with
      file_io_handle := none
      file_io_handle_opened_in_library := false
      file_io_handle_created_in_library := false }
    match libscca_io_handle_clear f1.io_handle with
    | .error _ =>
        (-1,
          { f1 with
              prefetch_hash := 0
              file_information := none
              filename_strings := none
              volumes_array := [] })
    | .ok io2 =>
        (0,
          { f1 with
              io_handle := some io2
              prefetch_hash := 0
              file_information := none
              filename_strings := none
              volumes_array := [] })

/-- Modelled from the spec: libfvalue_value_get_number_of_value_entries
over the filename-strings value (libfvalue is not among the sources); the
format description's query contract reports the number of parsed entries,
zero for an absent or empty table. -/
def libfvalue_value_get_number_of_value_entries
    (v : Option (List (List Nat))) : Except SccaError Nat :=
  .ok (v.getD []).length

/-- libscca_file_get_number_of_filenames: delegates to the entry count of
the filename strings value. -/
def libscca_file_get_number_of_filenames (f : InternalFile) :
    Except SccaError Nat :=
  libfvalue_value_get_number_of_value_entries f.filename_strings

/-- A minimal 240-byte version-17 file: a valid header whose file_size
field decodes to 240, and a file-information block whose section offsets
are all zero. -/
def minimal_v17_file : List Nat :=
  [17, 0, 0, 0] ++ scca_file_signature ++ List.replicate 4 0 ++
    [240, 0, 0, 0] ++ List.replicate 68 0 ++ List.replicate 156 0

/-- The abort-reset step at the head of libscca_file_open_read: whatever
the flag held, the handle it goes on with carries abort = 0. -/
theorem abort_cleared (io : IoHandle) :
    (if io.abort ≠ 0 then { io with abort := 0 } else io) =
      { io with abort := 0 } := by
  obtain ⟨fv, fs, ab⟩ := io
  by_cases hab : ab = 0
  · subst hab
    simp
  · simp [hab]

/-- The result of libscca_file_open_read does not depend on the abort flag
of the IO handle it starts from (only format version and file size reach
the decoders). -/
theorem open_read_abort_invariant (f : InternalFile) (io1 io2 : IoHandle)
    (data : List Nat) (hfv : io1.format_version = io2.format_version)
    (hfs : io1.file_size = io2.file_size) :
    (libscca_file_open_read { f with io_handle := some io1 } data).1 =
      (libscca_file_open_read { f with io_handle := some io2 } data).1 := by
  have hclear : ({ io1 with abort := 0 } : IoHandle) =
      { io2 with abort := 0 } := by
    obtain ⟨a1, b1, c1⟩ := io1
    obtain ⟨a2, b2, c2⟩ := io2
    simp_all
  simp only [libscca_file_open_read]
  rcases hfi : f.file_information with _ | x
  · rcases hfsn : f.filename_strings with _ | y
    · simp only [hfi, hfsn]
      rw [abort_cleared, abort_cleared, hclear]
      rfl
    · simp only [hfi, hfsn]
  · simp only [hfi]

set_option maxRecDepth 8000

/-- C5 counterexample: after libscca_file_signal_abort on a fresh file, a
parse of the minimal version-17 file still succeeds, producing a model
(file information present) with the abort flag cleared to 0 — not an
Aborted error. -/
theorem parse_after_signal_abort_succeeds :
    (libscca_file_open_read (libscca_file_signal_abort freshInternalFile).2
        minimal_v17_file).1 = .ok () ∧
      (libscca_file_open_read (libscca_file_signal_abort freshInternalFile).2
          minimal_v17_file).2.io_handle = some ⟨17, 240, 0⟩ ∧
      ((libscca_file_open_read (libscca_file_signal_abort freshInternalFile).2
          minimal_v17_file).2.file_information).isSome = true := by
  exact ⟨rfl, rfl, rfl⟩

/-- C5 (amended): libscca_file_signal_abort sets the abort flag on the IO
handle, but libscca_file_open_read merely clears a pending flag at entry
and proceeds: no decoder consults it, and the parse result is the same
whatever the flag's prior value. -/
theorem abort_flag_reset_not_honored :
    ∀ (f : InternalFile) (io : IoHandle) (a : Nat) (data : List Nat),
      ((libscca_file_signal_abort { f with io_handle := some io }).2.io_handle =
          some { io with abort := 1 }) ∧
        ((libscca_file_open_read { f with io_handle := some { io with abort := a } }
              data).1 =
          (libscca_file_open_read { f with io_handle := some { io with abort := 0 } }
              data).1) := by
  intro f io a data
  exact ⟨rfl, open_read_abort_invariant f { io with abort := a }
    { io with abort := 0 } data rfl rfl⟩

/-- C8: libscca_file_initialize rejects a NULL file argument with an
invalid-argument error, rejects an already-set target with a
value-already-set error leaving the target unchanged, and on a NULL target
succeeds, installing a freshly zeroed file whose volumes array is empty
and whose IO handle is zeroed. -/
theorem file_initialize_null_target_contract :
    libscca_file_initialize none = (.error .invalidArgument, none) ∧
      (∀ f : InternalFile,
        libscca_file_initialize (some (some f)) =
          (.error .valueAlreadySet, some (some f))) ∧
      libscca_file_initialize (some none) =
        (.ok (), some (some freshInternalFile)) ∧
      freshInternalFile.volumes_array = [] ∧
      freshInternalFile.io_handle = some zeroIoHandle := by
  exact ⟨rfl, fun f => rfl, rfl, rfl, rfl⟩

/-- C9: every open entry point rejects access flags that include the write
bit, and flags with neither read nor write, with an unsupported-value
error and an unchanged state — before any byte-source handle is created,
stored or opened. -/
theorem open_rejects_non_read_access :
    ∀ (f : InternalFile) (bf : BfioHandle) (fname : Nat) (wname : List Nat)
      (access_flags : Nat) (fileData : List Nat),
      (access_flags &&& LIBSCCA_ACCESS_FLAG_WRITE ≠ 0 ∨
        (access_flags &&& LIBSCCA_ACCESS_FLAG_READ = 0 ∧
          access_flags &&& LIBSCCA_ACCESS_FLAG_WRITE = 0)) →
      libscca_file_open f (some fname) access_flags fileData =
          (.error .unsupportedValue, f) ∧
        libscca_file_open_wide f (some wname) access_flags fileData =
          (.error .unsupportedValue, f) ∧
        (f.file_io_handle = none →
          libscca_file_open_file_io_handle f (some bf) access_flags =
            (.error .unsupportedValue, f)) := by
  intro f bf fname wname access_flags fileData hflags
  refine ⟨?_, ?_, ?_⟩
  · dsimp only [libscca_file_open]
    rcases hflags with hw | hrw
    · rw [if_neg (fun hc => hw hc.2), if_pos hw]
    · rw [if_pos hrw]
  · dsimp only [libscca_file_open_wide]
    rcases hflags with hw | hrw
    · rw [if_neg (fun hc => hw hc.2), if_pos hw]
    · rw [if_pos hrw]
  · intro hnone
    simp only [libscca_file_open_file_io_handle, hnone]
    rcases hflags with hw | hrw
    · rw [if_neg (fun hc => hw hc.2), if_pos hw]
    · rw [if_pos hrw]

/-- C9 witness: flags 2 (write only) rejected by all three entry points on
a fresh file. -/
theorem open_rejects_non_read_access_witness :
    libscca_file_open freshInternalFile (some 0) 2 [] =
        (.error .unsupportedValue, freshInternalFile) ∧
      libscca_file_open_wide freshInternalFile (some []) 2 [] =
        (.error .unsupportedValue, freshInternalFile) ∧
      libscca_file_open_file_io_handle freshInternalFile (some ⟨[], false⟩) 2 =
        (.error .unsupportedValue, freshInternalFile) := by
  have h := open_rejects_non_read_access freshInternalFile ⟨[], false⟩ 0 [] 2 []
    (Or.inl (by decide))
  exact ⟨h.1, h.2.1, h.2.2 rfl⟩

/-- C10: closing an open file returns 0 — not 1 — and restores exactly the
freshly initialized state (no byte-source handle, zeroed IO handle, zero
prefetch hash, no file information, no filename strings, empty volumes
array), the state in which every open precondition holds again. -/
theorem file_close_returns_zero_and_resets (f : InternalFile) (bf : BfioHandle)
    (hbf : f.file_io_handle = some bf) (hio : f.io_handle.isSome = true) :
    libscca_file_close f = (0, freshInternalFile) := by
  obtain ⟨io, hio2⟩ := Option.isSome_iff_exists.mp hio
  simp only [libscca_file_close, hbf, hio2, libscca_io_handle_clear]
  rfl

/-- C10 witness: closing a fresh file whose byte-source handle is set
yields 0 and the fresh state. -/
theorem file_close_returns_zero_witness :
    libscca_file_close { freshInternalFile with file_io_handle := some ⟨[], true⟩ } =
      (0, freshInternalFile) := by
  exact file_close_returns_zero_and_resets _ ⟨[], true⟩ rfl rfl

/-- C4: a parse that does not succeed leaves no partially constructed
entity behind: after any failing libscca_file_open_read from a clean state
the file information and filename strings are released and the volumes
array is empty, and after any failing libscca_file_open_file_io_handle the
stored byte-source handle reference is unchanged (none stays none), so no
parsed model reaches the caller. -/
theorem open_failure_releases_partial_state :
    ∀ (f : InternalFile) (io : IoHandle) (data : List Nat) (bf : BfioHandle)
      (access_flags : Nat),
      (f.io_handle = some io → f.file_information = none →
        f.filename_strings = none →
        ((libscca_file_open_read f data).1 = .ok () ∨
          ((libscca_file_open_read f data).2.file_information = none ∧
            (libscca_file_open_read f data).2.filename_strings = none ∧
            (libscca_file_open_read f data).2.volumes_array = []))) ∧
      ((libscca_file_open_file_io_handle f (some bf) access_flags).1 = .ok () ∨
        (libscca_file_open_file_io_handle f (some bf) access_flags).2.file_io_handle =
          f.file_io_handle) := by
  intro f io data bf access_flags
  constructor
  · intro hio hfi hfs
    simp only [libscca_file_open_read, hio, hfi, hfs]
    split
    · exact Or.inl rfl
    · exact Or.inr ⟨rfl, rfl, rfl⟩
  · rcases hbfio : f.file_io_handle with _ | bf0
    · simp only [libscca_file_open_file_io_handle, hbfio]
      split
      · exact Or.inr hbfio
      · split
        · exact Or.inr hbfio
        · split
          · exact Or.inl rfl
          · exact Or.inr rfl
    · simp only [libscca_file_open_file_io_handle, hbfio]
      exact Or.inr trivial

/-- C4 witness: parsing the empty input from a fresh state fails (short
header) and leaves file information none, filename strings none and an
empty volumes array. -/
theorem open_read_failure_witness :
    (libscca_file_open_read freshInternalFile []).1 = .ok () ∨
      ((libscca_file_open_read freshInternalFile []).2.file_information = none ∧
        (libscca_file_open_read freshInternalFile []).2.filename_strings = none ∧
        (libscca_file_open_read freshInternalFile []).2.volumes_array = []) := by
  exact (open_failure_releases_partial_state freshInternalFile zeroIoHandle []
    ⟨[], false⟩ 1).1 rfl rfl rfl

/-- A successful file-information read takes the filename-strings offset
and size from bytes 100..104 and 104..108. -/
theorem libscca_file_information_read_ok (io : IoHandle) (data : List Nat)
    (fi : FileInformation)
    (h : libscca_file_information_read io data = .ok fi) :
    fi.filename_strings_offset = readU32 data 100 ∧
      fi.filename_strings_size = readU32 data 104 := by
  dsimp only [libscca_file_information_read] at h
  repeat' split at h
  all_goals
    first
      | exact absurd h (fun hc => Except.noConfusion hc)
      | (obtain rfl := Except.ok.inj h; exact ⟨rfl, rfl⟩)

/-- When the filename-strings offset is zero, or its size is zero, a
successful openReadCore leaves the filename strings absent or empty. -/
theorem openReadCore_ok_filename_strings (f : InternalFile) (io1 : IoHandle)
    (data : List Nat) (f1 : InternalFile)
    (h : openReadCore f io1 data = .ok f1)
    (hempty : readU32 data 100 = 0 ∨ readU32 data 104 = 0) :
    f1.filename_strings = none ∨ f1.filename_strings = some [] := by
  dsimp only [openReadCore] at h
  rcases hh : libscca_io_handle_read_file_header io1 data.length data with e | p
  · simp [hh] at h
  · obtain ⟨io2, hash⟩ := p
    simp only [hh] at h
    rcases hfir : libscca_file_information_read io2 data with e | fi
    · simp [hfir] at h
    · simp only [hfir] at h
      obtain ⟨hoff, hsize⟩ := libscca_file_information_read_ok io2 data fi hfir
      by_cases hz : fi.filename_strings_offset = 0
      · have hz' : ¬(fi.filename_strings_offset ≠ 0) := by simp [hz]
        simp only [if_neg hz'] at h
        rcases hv : (if fi.volumes_information_offset ≠ 0 then
            (libscca_io_handle_read_volumes_information io2 data
              fi.volumes_information_offset fi.volumes_information_size
              fi.number_of_volumes).1
          else Except.ok []) with e | vols
        · simp [hv] at h
        · simp only [hv] at h
          rw [← Except.ok.inj h]
          left
          rfl
      · have hsz : fi.filename_strings_size = 0 := by
          rcases hempty with h0 | h0
          · exact absurd (hoff.trans h0) hz
          · exact hsize.trans h0
        rw [if_pos hz, hsz] at h
        dsimp only [libscca_io_handle_read_filename_strings] at h
        simp only [Nat.add_zero, List.take_zero] at h
        by_cases hlen : data.length < fi.filename_strings_offset
        · simp [hlen, exceptSome] at h
        · have ht : libfvalue_value_type_set_data_strings_array ([] : List Nat) =
              .ok [] := rfl
          simp only [if_neg hlen, ht, exceptSome] at h
          rcases hv : (if fi.volumes_information_offset ≠ 0 then
              (libscca_io_handle_read_volumes_information io2 data
                fi.volumes_information_offset fi.volumes_information_size
                fi.number_of_volumes).1
            else Except.ok []) with e | vols
          · simp [hv] at h
          · simp only [hv] at h
            rw [← Except.ok.inj h]
            right
            rfl

/-- C7: a successful parse of an input whose filename-strings section is
absent (offset field zero) or empty (size field zero) yields a state on
which the number-of-filenames query succeeds and returns 0. -/
theorem empty_filename_strings_count_zero (f : InternalFile) (data : List Nat)
    (hok : (libscca_file_open_read f data).1 = .ok ())
    (hempty : readU32 data 100 = 0 ∨ readU32 data 104 = 0) :
    libscca_file_get_number_of_filenames (libscca_file_open_read f data).2 =
      .ok 0 := by
  simp only [libscca_file_open_read] at hok ⊢
  rcases hio : f.io_handle with _ | io
  · simp [hio] at hok
  · simp only [hio] at hok ⊢
    rcases hfi : f.file_information with _ | x
    · simp only [hfi] at hok ⊢
      rcases hfsn : f.filename_strings with _ | y
      · simp only [hfsn] at hok ⊢
        rcases hcore : openReadCore f
            (if io.abort ≠ 0 then { io with abort := 0 } else io) data with p | f1
        · obtain ⟨e, fp⟩ := p
          simp [libscca_file_get_number_of_filenames,
            libfvalue_value_get_number_of_value_entries]
        · simp only [hcore] at hok ⊢
          rcases openReadCore_ok_filename_strings f _ data f1 hcore hempty with
              h | h <;>
            simp [libscca_file_get_number_of_filenames,
              libfvalue_value_get_number_of_value_entries, h]
      · simp [hfsn] at hok
    · simp [hfi] at hok

/-- C7 witness: the minimal version-17 file has filename-strings offset 0;
its parse succeeds and the filename count query returns 0. -/
theorem empty_filename_strings_count_zero_witness :
    libscca_file_get_number_of_filenames
        (libscca_file_open_read freshInternalFile minimal_v17_file).2 = .ok 0 := by
  exact empty_filename_strings_count_zero freshInternalFile minimal_v17_file rfl
    (Or.inl rfl)
